/-
  Spec2Proof.lean

  A shallow embedding, in Lean 4, of the cross-section evaluators of the
  TritiumPlasmaEffects repository (Kim1994.py, Rudd1991.py, Mott.py,
  Stone2002.py, Constants.py), together with theorems settling the stated
  claims about them.

  Modelling conventions:
  * Python floats are embedded as exact rationals (for the tabulated
    Stone2002 interpolation, which is pure arithmetic) or as real numbers
    (for the Kim1994 / Rudd1991 formulas, which use log, sqrt, rpow, pi).
  * Python functions that can raise are embedded into the `PyR` result
    type below: `PyR.ok v` is a normal return, `PyR.exn msg` a raised
    exception.  A Python function that falls off the end of its branch
    cascade returns `None`; this is embedded as `PyR.ok Option.none` on an
    `Option`-valued result (a successful return of None, not an error).
  * `np.interp` is embedded as exact piecewise-linear interpolation with
    numpy's clamping semantics (below the first grid point it returns the
    first ordinate, above the last grid point the last ordinate).
-/
import Mathlib

/-- Python-style result of a call: a returned value or a raised exception. -/
inductive PyR (α : Type) where
  | ok (v : α)
  | exn (msg : String)
deriving DecidableEq

namespace PyR

/-- Sequencing of Python evaluation: an exception propagates. -/
def bind {α β : Type} : PyR α → (α → PyR β) → PyR β
  | .ok v, f => f v
  | .exn m, _ => .exn m

end PyR

/- ----------------------------------------------------------------------
   Constants.py
   ---------------------------------------------------------------------- -/

namespace Constants

/-- `RYDBERGEV = 13.605693122994` (eV), from Constants.py. -/
def RYDBERGEV : ℝ := 13.605693122994

/-- `IONIZATIONENERGYH = 13.59844` (eV), from Constants.py. -/
def IONIZATIONENERGYH : ℝ := 13.59844

/-- `scipy.constants.physical_constants["Bohr radius"][0]` (m), CODATA 2018
value as shipped by scipy. -/
def bohrRadius : ℝ := 5.29177210903e-11

/-- `scipy.constants.physical_constants["Rydberg constant times hc in eV"][0]`
(eV), CODATA 2018 value as shipped by scipy. -/
def rydbergTimesHcEV : ℝ := 13.605693122994

end Constants

/- ----------------------------------------------------------------------
   Kim1994.py  (class Kim1994) — real arithmetic, species dispatch on a
   string tag exactly as in the source
   ---------------------------------------------------------------------- -/

noncomputable section RealValuedEvaluators

namespace Kim1994

/-- The species coefficient cascade (a, b, c, d, e, f) that the source
repeats verbatim inside `DiffOscillatorStrength`, `DiffOscillatorStrength_w`
and `_D`: a `ValueError("Species not supported")` for any tag outside
{H, He, H2}. -/
def kimCoeffs (species : String) : PyR (ℝ × ℝ × ℝ × ℝ × ℝ × ℝ) :=
  if species = "H" then
    .ok (0.0, -2.2473e-2, 1.1775, -4.6264e-1, 8.9064e-2, 0.0)
  else if species = "He" then
    .ok (0.0, 0.0, 1.2178e1, -2.9585e1, 3.1251e1, -1.2175e1)
  else if species = "H2" then
    .ok (0.0, 0.0, 1.1262, 6.3982, -7.8055, 2.1440)
  else
    .exn "Species not supported"

/-- `DiffOscillatorStrength(y)`: the degree-6 polynomial in y with the
species coefficients. -/
def DiffOscillatorStrength (species : String) (y : ℝ) : PyR ℝ :=
  (kimCoeffs species).bind fun (a, b, c, d, e, f) =>
    .ok (a * y + b * y ^ 2 + c * y ^ 3 + d * y ^ 4 + e * y ^ 5 + f * y ^ 6)

/-- `DiffOscillatorStrength_w(w)`: the same coefficients in the rational
form in (w + 1). -/
def DiffOscillatorStrength_w (species : String) (w : ℝ) : PyR ℝ :=
  (kimCoeffs species).bind fun (a, b, c, d, e, f) =>
    .ok (a / (w + 1) + b / (w + 1) ^ 2 + c / (w + 1) ^ 3 + d / (w + 1) ^ 4 +
      e / (w + 1) ^ 5 + f / (w + 1) ^ 6)

/-- `_N`: electron count of the target. -/
def N (species : String) : PyR ℝ :=
  if species = "H" then .ok 1.0
  else if species = "He" then .ok 2.0
  else if species = "H2" then .ok 2.0
  else .exn "Species not supported"

/-- `_B`: binding energy of the target (eV). -/
def B (species : String) : PyR ℝ :=
  if species = "H" then .ok 1.36057e1
  else if species = "He" then .ok 2.459e1
  else if species = "H2" then .ok 1.543e1
  else .exn "Species not supported"

/-- `_D`: closed-form integral of the oscillator-strength fit.  The source
computes `t = T / B` first (so an unsupported species raises there), then
the coefficient cascade, then the five antiderivative terms, and finally
divides by `_N()`. -/
def D (species : String) (T : ℝ) : PyR ℝ :=
  (B species).bind fun b0 =>
  let t := T / b0
  (kimCoeffs species).bind fun (_, b, c, d, e, f) =>
  let tTerm := (t + 1.0) / 2.0
  let bTerm := (b / 2) * (1 - (tTerm ^ 2)⁻¹)
  let cTerm := (c / 3) * (1 - (tTerm ^ 3)⁻¹)
  let dTerm := (d / 4) * (1 - (tTerm ^ 4)⁻¹)
  let eTerm := (e / 5) * (1 - (tTerm ^ 5)⁻¹)
  let fTerm := (f / 6) * (1 - (tTerm ^ 6)⁻¹)
  (N species).bind fun n =>
  .ok ((bTerm + cTerm + dTerm + eTerm + fTerm) / n)

/-- `_Ni`: empirical normalization constant.  NOTE: in the source this
cascade has NO final `else` raising `ValueError` — for an unsupported
species the Python function falls off the end and silently returns `None`.
This is embedded as a successful return of `Option.none`. -/
def Ni (species : String) : PyR (Option ℝ) :=
  if species = "H" then .ok (some 0.4343)
  else if species = "He" then .ok (some 1.605)
  else if species = "H2" then .ok (some 1.173)
  else .ok none

/-- `_U`: average kinetic energy of the bound electrons (eV). -/
def U (species : String) : PyR ℝ :=
  if species = "H" then .ok 1.36057e1
  else if species = "He" then .ok 3.951e1
  else if species = "H2" then .ok 2.568e1
  else .exn "Species not supported"

/-- `_S`: normalization factor `4π a₀² · N · (Ryd/B)²`; the source calls
`_N()` before `_B()`. -/
def S (species : String) : PyR ℝ :=
  let a0 := Constants.bohrRadius
  let bohrXSec := 4.0 * Real.pi * a0 ^ 2
  (N species).bind fun n =>
  (B species).bind fun b =>
  .ok (bohrXSec * n * (Constants.rydbergTimesHcEV / b) ^ 2)

/-- `SingleDiffXSec_W(W)`: singly-differential ionization cross-section in
the outgoing electron energy W (m²/eV).  A use of the `None` returned by
`_Ni` for an unsupported species in the arithmetic would raise a Python
`TypeError`; that branch is unreachable because `_B` raises first. -/
def SingleDiffXSec_W (species : String) (T W : ℝ) : PyR ℝ :=
  (B species).bind fun b0 =>
  let t := T / b0
  (U species).bind fun u0 =>
  let u := u0 / b0
  let w := W / b0
  (S species).bind fun s0 =>
  let prefac := s0 / (b0 * (t + u + 1))
  (Ni species).bind fun niOpt =>
  match niOpt with
  | none => .exn "TypeError: unsupported operand type for /: NoneType and float"
  | some ni =>
    (N species).bind fun n =>
    let term1 := (ni / n - 2) / (t + 1) * (1 / (w + 1) + 1 / (t - w))
    let term2 := (2 - ni / n) * (1 / (w + 1) ^ 2 + 1 / (t - w) ^ 2)
    (DiffOscillatorStrength_w species w).bind fun dosw =>
    let term3 := Real.log t / (n * (w + 1)) * dosw
    .ok (prefac * (term1 + term2 + term3))

/-- `TotalXSec()`: total ionization cross-section (m²). -/
def TotalXSec (species : String) (T : ℝ) : PyR ℝ :=
  (B species).bind fun b0 =>
  let t := T / b0
  (U species).bind fun u0 =>
  let u := u0 / b0
  (S species).bind fun s0 =>
  let prefactor := s0 / (t + u + 1)
  (D species T).bind fun d0 =>
  (Ni species).bind fun niOpt =>
  match niOpt with
  | none => .exn "TypeError: unsupported operand type for /: NoneType and float"
  | some ni =>
    (N species).bind fun n =>
    .ok (prefactor * (d0 * Real.log t +
      (2 - ni / n) * ((t - 1) / t - Real.log t / (t + 1))))

end Kim1994

/- ----------------------------------------------------------------------
   Spec-side formulas for the Kim1994 total cross-section (written from
   the specification text, to be compared with the source embedding above)
   ---------------------------------------------------------------------- -/

namespace KimSpec

/-- Spec SpeciesFitTable: electron count N per supported species. -/
def tblN (species : String) : ℝ :=
  if species = "H" then 1 else if species = "He" then 2 else 2

/-- Spec SpeciesFitTable: binding energy B (eV) per supported species. -/
def tblB (species : String) : ℝ :=
  if species = "H" then 1.36057e1 else if species = "He" then 2.459e1 else 1.543e1

/-- Spec SpeciesFitTable: average orbital kinetic energy U (eV). -/
def tblU (species : String) : ℝ :=
  if species = "H" then 1.36057e1 else if species = "He" then 3.951e1 else 2.568e1

/-- Spec SpeciesFitTable: empirical normalization Ni. -/
def tblNi (species : String) : ℝ :=
  if species = "H" then 0.4343 else if species = "He" then 1.605 else 1.173

/-- Spec SpeciesFitTable: the six fit coefficients (a, b, c, d, e, f). -/
def tblCoeffs (species : String) : ℝ × ℝ × ℝ × ℝ × ℝ × ℝ :=
  if species = "H" then (0.0, -2.2473e-2, 1.1775, -4.6264e-1, 8.9064e-2, 0.0)
  else if species = "He" then (0.0, 0.0, 1.2178e1, -2.9585e1, 3.1251e1, -1.2175e1)
  else (0.0, 0.0, 1.1262, 6.3982, -7.8055, 2.1440)

/-- Spec helper S(): normalization cross-section scale
`4π·a₀²·N·(Rydberg_eV/B)²`. -/
def specS (species : String) : ℝ :=
  4 * Real.pi * Constants.bohrRadius ^ 2 * tblN species *
    (Constants.rydbergTimesHcEV / tblB species) ^ 2

/-- Spec helper D(): with `tTerm = (t+1)/2` and `t = T/B`, the closed form
`Σ_{k=2..6} (coeff_k/k)·(1 − tTerm^{−k})`, divided by N. -/
def specD (species : String) (T : ℝ) : ℝ :=
  let t := T / tblB species
  let tTerm := (t + 1) / 2
  let cf := tblCoeffs species
  (cf.2.1 / 2 * (1 - (tTerm ^ 2)⁻¹) + cf.2.2.1 / 3 * (1 - (tTerm ^ 3)⁻¹) +
    cf.2.2.2.1 / 4 * (1 - (tTerm ^ 4)⁻¹) + cf.2.2.2.2.1 / 5 * (1 - (tTerm ^ 5)⁻¹) +
    cf.2.2.2.2.2 / 6 * (1 - (tTerm ^ 6)⁻¹)) / tblN species

/-- Spec `TotalXSec()` formula:
`[S()/(t+u+1)] · [D()·ln(t) + (2−Ni/N)·((t−1)/t − ln(t)/(t+1))]`
with `t = T/B` and `u = U/B`. -/
def specTotalXSec (species : String) (T : ℝ) : ℝ :=
  let t := T / tblB species
  let u := tblU species / tblB species
  specS species / (t + u + 1) *
    (specD species T * Real.log t +
      (2 - tblNi species / tblN species) * ((t - 1) / t - Real.log t / (t + 1)))

end KimSpec

/- ----------------------------------------------------------------------
   Rudd1991.py  (class RuddXSec) — real arithmetic
   ---------------------------------------------------------------------- -/

namespace Rudd1991

/-- The constructor's `self.__t = T / IONIZATIONENERGYH`. -/
def tOf (T : ℝ) : ℝ := T / Constants.IONIZATIONENERGYH

/-- What the body of `__S` would compute.  See `S_call`: the body is never
reached. -/
def S_body : ℝ :=
  4.0 * Real.pi * Constants.bohrRadius ^ 2 *
    (Constants.RYDBERGEV / Constants.IONIZATIONENERGYH) ^ 2

/-- A call `self.__S()` in the source.  `__S` is declared as `def __S():`
with NO `self` parameter, so the bound-method call passes the instance as
an unexpected positional argument and every call raises
`TypeError: __S() takes 0 positional arguments but 1 was given` before the
body is entered. -/
def S_call : PyR ℝ :=
  .exn "TypeError: __S() takes 0 positional arguments but 1 was given"

/-- `__F`: empirical log fit `(A1·ln t + A2 + A3/t)/t`. -/
def F (T : ℝ) : ℝ :=
  let t := tOf T
  (0.74 * Real.log t + 0.87 + (-0.6) / t) / t

/-- `__g_1`: closed-form term with exponent n = 2.4 (real powers). -/
def g_1 (T : ℝ) : ℝ :=
  let t := tOf T
  let n : ℝ := 2.4
  (1.0 - t ^ (1 - n)) / (n - 1.0) -
    (2.0 / (t + 1)) ^ (n / 2.0) * (1 - t ^ (1 - n / 2)) / (n - 2)

/-- `TotalXSec` = `self.__S() * self.__F() * self.__g_1()`; the call to
`__S` is evaluated first and raises. -/
def TotalXSec (T : ℝ) : PyR ℝ :=
  S_call.bind fun s0 => .ok (s0 * F T * g_1 T)

/-- `__f_1(W)`. -/
def f_1 (T W : ℝ) : ℝ :=
  let w := W / Constants.IONIZATIONENERGYH
  let n : ℝ := 2.4
  1.0 / (w + 1) ^ n + 1.0 / (tOf T - w) ^ n -
    1.0 / ((w + 1) * (tOf T - w)) ^ (n / 2.0)

/-- `__G2(W)` = `sqrt((w+1)/t)`. -/
def G2 (T W : ℝ) : ℝ :=
  let w := W / Constants.IONIZATIONENERGYH
  Real.sqrt ((w + 1.0) / tOf T)

/-- `__G3(W)` with β = 0.6. -/
def G3 (T W : ℝ) : ℝ :=
  let w := W / Constants.IONIZATIONENERGYH
  0.6 * Real.sqrt ((1.0 - G2 T W ^ 2) / w)

/-- `__G4(W)` with γ = 10.0. -/
def G4 (T W : ℝ) : ℝ :=
  let w := W / Constants.IONIZATIONENERGYH
  10.0 * (1.0 - w / tOf T) ^ 3 / (tOf T * (w + 1.0))

/-- `__gBE(W)`: arctangent-based angular-integrated Lorentzian form. -/
def gBE (T W : ℝ) : ℝ :=
  2.0 * Real.pi * G3 T W *
    (Real.arctan ((1.0 - G2 T W) / G3 T W) + Real.arctan ((1.0 + G2 T W) / G3 T W))

/-- `__G1(W)`: calls `self.__S()` first, so every call raises. -/
def G1 (T W : ℝ) : PyR ℝ :=
  S_call.bind fun s0 =>
    .ok ((s0 * F T * f_1 T W / Constants.IONIZATIONENERGYH) /
      (gBE T W + G4 T W * 2.9))

/-- `SinglyDifferentialXSec_W(W)` = `G1(W)·(gBE(W) + G4(W)·2.9)`. -/
def SinglyDifferentialXSec_W (T W : ℝ) : PyR ℝ :=
  (G1 T W).bind fun g => .ok (g * (gBE T W + G4 T W * 2.9))

/-- `__fBE(W, theta)`: Lorentzian in cos(theta) centered at G2 with width G3. -/
def fBE (T W theta : ℝ) : ℝ :=
  1.0 / (1.0 + ((Real.cos theta - G2 T W) / G3 T W) ^ 2)

/-- `__G4fb(W, theta)`: second Lorentzian centered at −1, width G5 = 0.33. -/
def G4fb (T W theta : ℝ) : ℝ :=
  G4 T W / (1.0 + ((Real.cos theta + 1) / 0.33) ^ 2)

/-- `DoublyDifferentialXSec(W, theta)` = `G1(W)·(fBE + G4fb)`. -/
def DoublyDifferentialXSec (T W theta : ℝ) : PyR ℝ :=
  (G1 T W).bind fun g => .ok (g * (fBE T W theta + G4fb T W theta))

end Rudd1991

end RealValuedEvaluators

/- ----------------------------------------------------------------------
   Stone2002.py  (class ExcitationXSec) — exact rational arithmetic
   ---------------------------------------------------------------------- -/

namespace Stone2002

/-- `np.interp` on a list of (x, y) points with strictly increasing x:
clamped piecewise-linear interpolation.  Below the first point it returns
the first ordinate, above the last point the last ordinate, and on an
interval the linear interpolant (which at a grid point is the stored
ordinate exactly). -/
def interpP (x : ℚ) : List (ℚ × ℚ) → ℚ
  | [] => 0
  | [p] => p.2
  | p :: q :: rest =>
      if x < p.1 then p.2
      else if x ≤ q.1 then p.2 + (q.2 - p.2) * (x - p.1) / (q.1 - p.1)
      else interpP x (q :: rest)

/-- `np.interp(x, xp, fp)` with the two parallel arrays of Stone2002. -/
def npInterp (x : ℚ) (xp fp : List ℚ) : ℚ := interpP x (xp.zip fp)

/-- `XSec2pData`: energies (eV) and cross-sections (m², stored as the raw
table scaled by 1e-20, exactly as the source computes `xsecs * 1e-20`). -/
def XSec2pData : List ℚ × List ℚ :=
  let energies : List ℚ := [11, 12, 13, 14, 15, 16, 17, 18, 19,
                            20, 21, 22, 23, 24, 26, 28, 30, 32,
                            34, 36, 38, 40, 45, 50, 55, 60, 65,
                            70, 75, 80, 85, 90, 95, 100, 110, 120,
                            130, 140, 150, 160, 170, 180, 190, 200,
                            250, 300, 350, 400, 450, 500, 600, 700,
                            800, 900, 1000, 1500, 2000, 3000]
  let xsecs : List ℚ := [0.15876, 0.24099, 0.31086, 0.35119, 0.39256,
                         0.42786, 0.45828, 0.48468, 0.50768, 0.52779,
                         0.54540, 0.56084, 0.57439, 0.58627, 0.60580,
                         0.62069, 0.63189, 0.64013, 0.64597, 0.64986,
                         0.65216, 0.65315, 0.65130, 0.64520, 0.63647,
                         0.62615, 0.61489, 0.60315, 0.59121, 0.57929,
                         0.56750, 0.55593, 0.54465, 0.53369, 0.51276,
                         0.49322, 0.47500, 0.45805, 0.44227, 0.42756,
                         0.41383, 0.40100, 0.38898, 0.37771, 0.33045,
                         0.29445, 0.26607, 0.24309, 0.22408, 0.20807,
                         0.18254, 0.16303, 0.14760, 0.13505, 0.12463,
                         0.09094, 0.07236, 0.05214]
  (energies, xsecs.map (fun v => v * 1e-20))

/-- `XSec3pData`: energies and cross-sections for excitation to 3p. -/
def XSec3pData : List ℚ × List ℚ :=
  let energies : List ℚ := [13, 14, 15, 16, 17, 18, 19,
                            20, 21, 22, 23, 24, 26, 28, 30, 32,
                            34, 36, 38, 40, 45, 50, 55, 60, 65,
                            70, 75, 80, 85, 90, 95, 100, 110, 120,
                            130, 140, 150, 160, 170, 180, 190, 200,
                            250, 300, 350, 400, 450, 500, 600, 700,
                            800, 900, 1000, 1500, 2000, 3000]
  let xsecs : List ℚ := [0.03033, 0.04382, 0.05372, 0.06166, 0.06827, 0.07387,
                         0.07867, 0.08282, 0.08642, 0.08957, 0.09231, 0.09472,
                         0.09867, 0.10169, 0.10398, 0.10569, 0.10695, 0.10782,
                         0.10840, 0.10872, 0.10870, 0.10787, 0.10654, 0.10490,
                         0.10308, 0.10116, 0.09919, 0.09721, 0.09524, 0.09331,
                         0.09142, 0.08959, 0.08607, 0.08278, 0.07972, 0.07686,
                         0.07420, 0.07171, 0.06940, 0.06723, 0.06520, 0.06330,
                         0.05533, 0.04926, 0.04447, 0.04060, 0.03741, 0.03471,
                         0.03042, 0.02715, 0.02456, 0.02246, 0.02071, 0.01508,
                         0.01198, 0.00862]
  (energies, xsecs.map (fun v => v * 1e-20))

/-- `XSec4pData`: energies and cross-sections for excitation to 4p. -/
def XSec4pData : List ℚ × List ℚ :=
  let energies : List ℚ := [13, 14, 15, 16, 17, 18, 19,
                            20, 21, 22, 23, 24, 26, 28, 30, 32,
                            34, 36, 38, 40, 45, 50, 55, 60, 65,
                            70, 75, 80, 85, 90, 95, 100, 110, 120,
                            130, 140, 150, 160, 170, 180, 190, 200,
                            250, 300, 350, 400, 450, 500, 600, 700,
                            800, 900, 1000, 1500, 2000, 3000]
  let xsecs : List ℚ := [0.00573, 0.01274, 0.01697, 0.02018, 0.02278, 0.02496,
                         0.02681, 0.02840, 0.02977, 0.03096, 0.03200, 0.03291,
                         0.03440, 0.03554, 0.03641, 0.03706, 0.03754, 0.03788,
                         0.03811, 0.03825, 0.03828, 0.03801, 0.03756, 0.03700,
                         0.03636, 0.03569, 0.03500, 0.03431, 0.03362, 0.03294,
                         0.03227, 0.03162, 0.03038, 0.02922, 0.02814, 0.02713,
                         0.02619, 0.02531, 0.02449, 0.02372, 0.02301, 0.02233,
                         0.01952, 0.01737, 0.01568, 0.01431, 0.01318, 0.01223,
                         0.01071, 0.00956, 0.00865, 0.00790, 0.00729, 0.00530,
                         0.00421, 0.00303]
  (energies, xsecs.map (fun v => v * 1e-20))

/-- `XSec5pData`: energies and cross-sections for excitation to 5p. -/
def XSec5pData : List ℚ × List ℚ :=
  let energies : List ℚ := [14, 15, 16, 17, 18, 19,
                            20, 21, 22, 23, 24, 26, 28, 30, 32,
                            34, 36, 38, 40, 45, 50, 55, 60, 65,
                            70, 75, 80, 85, 90, 95, 100, 110, 120,
                            130, 140, 150, 160, 170, 180, 190, 200,
                            250, 300, 350, 400, 450, 500, 600, 700,
                            800, 900, 1000, 1500, 2000, 3000]
  let xsecs : List ℚ := [0.00528, 0.00752, 0.00916, 0.01046, 0.01154, 0.01245,
                         0.01323, 0.01391, 0.01449, 0.01500, 0.01544, 0.01617,
                         0.01673, 0.01715, 0.01747, 0.01771, 0.01787, 0.01799,
                         0.01806, 0.01808, 0.01796, 0.01775, 0.01749, 0.01719,
                         0.01688, 0.01655, 0.01622, 0.01590, 0.01557, 0.01526,
                         0.01495, 0.01437, 0.01382, 0.01331, 0.01283, 0.01238,
                         0.01197, 0.01158, 0.01122, 0.01088, 0.01056, 0.00923,
                         0.00821, 0.00741, 0.00676, 0.00623, 0.00578, 0.00506,
                         0.00452, 0.00408, 0.00373, 0.00344, 0.00250, 0.00199,
                         0.00143]
  (energies, xsecs.map (fun v => v * 1e-20))

/-- `XSec6pData`: energies and cross-sections for excitation to 6p. -/
def XSec6pData : List ℚ × List ℚ :=
  let energies : List ℚ := [14, 15, 16, 17, 18, 19,
                            20, 21, 22, 23, 24, 26, 28, 30, 32,
                            34, 36, 38, 40, 45, 50, 55, 60, 65,
                            70, 75, 80, 85, 90, 95, 100, 110, 120,
                            130, 140, 150, 160, 170, 180, 190, 200,
                            250, 300, 350, 400, 450, 500, 600, 700,
                            800, 900, 1000, 1500, 2000, 3000]
  let xsecs : List ℚ := [0.00267, 0.00401, 0.00496, 0.00570, 0.00632, 0.00684,
                         0.00728, 0.00766, 0.00799, 0.00828, 0.00853, 0.00894,
                         0.00925, 0.00949, 0.00967, 0.00981, 0.00990, 0.00997,
                         0.01001, 0.01002, 0.00996, 0.00984, 0.00970, 0.00953,
                         0.00936, 0.00918, 0.00900, 0.00882, 0.00864, 0.00846,
                         0.00829, 0.00797, 0.00766, 0.00738, 0.00712, 0.00687,
                         0.00664, 0.00642, 0.00622, 0.00603, 0.00586, 0.00512,
                         0.00455, 0.00411, 0.00375, 0.00345, 0.00320, 0.00281,
                         0.00250, 0.00226, 0.00207, 0.00191, 0.00139, 0.00110,
                         0.000791]
  (energies, xsecs.map (fun v => v * 1e-20))

/-- `CalcXSec2p`: 0 below the 10.204 eV threshold, otherwise the
interpolated table value. -/
def CalcXSec2p (T : ℚ) : ℚ :=
  let d := XSec2pData
  if T < 10.204 then 0 else npInterp T d.1 d.2

/-- `CalcXSec3p`: 0 below the 12.094 eV threshold, otherwise the
interpolated table value. -/
def CalcXSec3p (T : ℚ) : ℚ :=
  let d := XSec3pData
  if T < 12.094 then 0 else npInterp T d.1 d.2

/-- `CalcXSec4p`: 0 below the 12.755 eV threshold, otherwise the
interpolated table value. -/
def CalcXSec4p (T : ℚ) : ℚ :=
  let d := XSec4pData
  if T < 12.755 then 0 else npInterp T d.1 d.2

/-- `CalcXSec5p`: 0 below the 13.061 eV threshold, otherwise the
interpolated table value. -/
def CalcXSec5p (T : ℚ) : ℚ :=
  let d := XSec5pData
  if T < 13.061 then 0 else npInterp T d.1 d.2

/-- `CalcXSec6p`: 0 below the 13.228 eV threshold, otherwise the
interpolated table value. -/
def CalcXSec6p (T : ℚ) : ℚ :=
  let d := XSec6pData
  if T < 13.228 then 0 else npInterp T d.1 d.2

/-- `TotalXSec`: sum of the five partial excitation cross-sections. -/
def TotalXSec (T : ℚ) : ℚ :=
  CalcXSec2p T + CalcXSec3p T + CalcXSec4p T + CalcXSec5p T + CalcXSec6p T

end Stone2002

namespace Stone2002

/-- Unfolding equation for `interpP` on a list with at least two points. -/
theorem interpP_cons_cons (x : ℚ) (p q : ℚ × ℚ) (l : List (ℚ × ℚ)) :
    interpP x (p :: q :: l) =
      if x < p.1 then p.2
      else if x ≤ q.1 then p.2 + (q.2 - p.2) * (x - p.1) / (q.1 - p.1)
      else interpP x (q :: l) := rfl

/-- `np.interp` clamps above the grid: when x lies strictly above every
abscissa, the interpolant is the last ordinate (numpy's `right` default). -/
theorem interpP_of_forall_lt (x : ℚ) :
    ∀ l : List (ℚ × ℚ), (∀ p ∈ l, p.1 < x) →
      interpP x l = (l.getLastD (0, 0)).2 := by
  intro l
  induction l with
  | nil => intro _; rfl
  | cons p l ih =>
    intro h
    cases l with
    | nil => rfl
    | cons q m =>
      rw [interpP_cons_cons]
      have hp : p.1 < x := h p (List.mem_cons_self p _)
      have hq : q.1 < x := h q (List.mem_cons_of_mem p (List.mem_cons_self q m))
      rw [if_neg (not_lt.mpr hp.le), if_neg (not_le.mpr hq)]
      rw [ih (fun r hr => h r (List.mem_cons_of_mem p hr))]
      rw [List.getLastD_cons, List.getLastD_cons, List.getLastD_cons]

/-- All tabulated energies of a Stone2002 table are at most 3000 eV, so a
query energy above 3000 lies strictly above every abscissa of the zipped
point list. -/
theorem zip_fst_lt_of_le_3000 (es fs : List ℚ) (T : ℚ) (h3000 : 3000 < T)
    (hb : ∀ e ∈ es, e ≤ 3000) :
    ∀ p ∈ es.zip fs, p.1 < T := by
  intro p hp
  have hmem : p.1 ∈ es := (List.of_mem_zip hp).1
  have := hb p.1 hmem
  linarith

end Stone2002

/- ----------------------------------------------------------------------
   Basic lemmas about PyR sequencing
   ---------------------------------------------------------------------- -/

namespace PyR

@[simp] theorem bind_ok {α β : Type} (v : α) (f : α → PyR β) :
    PyR.bind (.ok v) f = f v := rfl

@[simp] theorem bind_exn {α β : Type} (m : String) (f : α → PyR β) :
    PyR.bind (.exn m) f = .exn m := rfl

@[simp] theorem ok_inj {α : Type} (v w : α) : (PyR.ok v = PyR.ok w) ↔ v = w := by
  constructor
  · intro h; cases h; rfl
  · intro h; rw [h]

end PyR

/- ----------------------------------------------------------------------
   Claim theorems
   ---------------------------------------------------------------------- -/

/-- C1 (code evaluated at the failing input): for the unsupported species
tag "D2", the internal helper `_Ni` of Kim1994 does NOT raise the
"unsupported species" error — its branch cascade has no final `else`, so
the call silently returns Python `None`.  This contradicts the claim that
every species-dependent helper, `_Ni` included, raises the error. -/
theorem kim1994_Ni_unsupported_returns_none :
    Kim1994.Ni "D2" = PyR.ok Option.none := by
  simp [Kim1994.Ni]

/-- C2 (code evaluated at the failing input): for a RuddXSec evaluator with
T = 100 eV, `TotalXSec()` does not return a number at all: `__S` is
declared without a `self` parameter, so the bound-method call `self.__S()`
raises a TypeError before any arithmetic happens. -/
theorem rudd_totalXSec_100_raises :
    Rudd1991.TotalXSec 100 =
      PyR.exn "TypeError: __S() takes 0 positional arguments but 1 was given" := rfl

/-- C3 (code evaluated at the failing input): `SinglyDifferentialXSec_W`
of RuddXSec at T = 100 eV, W = 10 eV raises a TypeError (via `__G1`, which
calls the parameterless-declared `__S` on the instance) — an exception
other than the one recognized "unsupported species" error, contradicting
the claim that no other exception is ever raised. -/
theorem rudd_singlyDifferentialXSec_100_10_raises :
    Rudd1991.SinglyDifferentialXSec_W 100 10 =
      PyR.exn "TypeError: __S() takes 0 positional arguments but 1 was given" := rfl

/-- C10: for every supported species and every w ≠ −1, the rational form
`DiffOscillatorStrength_w(w)` coincides with the polynomial form
`DiffOscillatorStrength` evaluated at y = 1/(w+1), with the same species
coefficients. -/
theorem kim1994_dosw_eq_dos_at_inv (s : String)
    (hs : s = "H" ∨ s = "He" ∨ s = "H2") (w : ℝ) (hw : w ≠ -1) :
    Kim1994.DiffOscillatorStrength_w s w =
      Kim1994.DiffOscillatorStrength s (1 / (w + 1)) := by
  have hw1 : w + 1 ≠ 0 := by
    intro h
    apply hw
    linarith
  rcases hs with h | h | h <;> subst h <;>
    simp only [Kim1994.DiffOscillatorStrength_w, Kim1994.DiffOscillatorStrength,
      Kim1994.kimCoeffs] <;>
    norm_num [PyR.bind, PyR.ok_inj] <;>
    field_simp

/-- Witness for C10 at species "H", w = 1. -/
theorem kim1994_dosw_eq_dos_at_inv_witness :
    Kim1994.DiffOscillatorStrength_w "H" 1 =
      Kim1994.DiffOscillatorStrength "H" (1 / (1 + 1)) :=
  kim1994_dosw_eq_dos_at_inv "H" (Or.inl rfl) 1 (by norm_num)

set_option maxHeartbeats 2000000 in
/-- C5: for every supported species and every kinetic energy T, the
Kim1994 `TotalXSec()` returns exactly the specification formula
`[S/(t+u+1)] · [D·ln(t) + (2−Ni/N)·((t−1)/t − ln(t)/(t+1))]` with
`t = T/B`, `u = U/B` and `S = 4π·a₀²·N·(Rydberg_eV/B)²`, instantiated at
the species' table values of B, U, N, Ni. -/
theorem kim1994_totalXSec_matches_spec (s : String)
    (hs : s = "H" ∨ s = "He" ∨ s = "H2") (T : ℝ) :
    Kim1994.TotalXSec s T = PyR.ok (KimSpec.specTotalXSec s T) := by
  rcases hs with h | h | h <;> subst h <;>
    simp only [Kim1994.TotalXSec, Kim1994.B, Kim1994.U, Kim1994.S, Kim1994.N,
      Kim1994.D, Kim1994.Ni, Kim1994.kimCoeffs, KimSpec.specTotalXSec,
      KimSpec.specS, KimSpec.specD, KimSpec.tblB, KimSpec.tblU, KimSpec.tblN,
      KimSpec.tblNi, KimSpec.tblCoeffs, String.reduceEq, reduceIte,
      PyR.bind, PyR.ok_inj] <;>
    ring

/-- Witness for C5 at species "H", T = 100 eV. -/
theorem kim1994_totalXSec_matches_spec_witness :
    Kim1994.TotalXSec "H" 100 = PyR.ok (KimSpec.specTotalXSec "H" 100) :=
  kim1994_totalXSec_matches_spec "H" (Or.inl rfl) 100

/-- C6: `CalcXSec2p` returns exactly 0 for every T strictly below the
10.204 eV threshold, and at the grid point T = 20 eV it returns exactly
the stored table value 0.52779e-20 m². -/
theorem stone_calcXSec2p_below_threshold_and_at_grid (T : ℚ)
    (hT : T < 10.204) :
    Stone2002.CalcXSec2p T = 0 ∧ Stone2002.CalcXSec2p 20 = 0.52779e-20 := by
  constructor
  · simp only [Stone2002.CalcXSec2p, if_pos hT]
  · norm_num [Stone2002.CalcXSec2p, Stone2002.npInterp, Stone2002.XSec2pData,
      Stone2002.interpP]

/-- Witness for C6 at T = 10 eV. -/
theorem stone_calcXSec2p_below_threshold_and_at_grid_witness :
    (10 : ℚ) < 10.204 ∧
      (Stone2002.CalcXSec2p 10 = 0 ∧ Stone2002.CalcXSec2p 20 = 0.52779e-20) :=
  ⟨by norm_num, stone_calcXSec2p_below_threshold_and_at_grid 10 (by norm_num)⟩

/-- C4 (counterexample): the claim says the value of `TotalXSec` at the
2p threshold 10.204 eV equals the limit from below, namely 0.  In fact at
T = 10.204 the 2p branch takes the interpolation path, which clamps below
the table minimum of 11 eV to the first tabulated value, so `TotalXSec`
returns 0.15876e-20 m² ≠ 0 (while just below threshold, e.g. at
T = 10.2 eV, it returns exactly 0). -/
theorem stone_totalXSec_2p_threshold_cex :
    Stone2002.TotalXSec 10.204 = 0.15876e-20 ∧
      Stone2002.TotalXSec 10.2 = 0 ∧ (0.15876e-20 : ℚ) ≠ 0 := by
  refine ⟨?_, ?_, by norm_num⟩
  · norm_num [Stone2002.TotalXSec, Stone2002.CalcXSec2p, Stone2002.CalcXSec3p,
      Stone2002.CalcXSec4p, Stone2002.CalcXSec5p, Stone2002.CalcXSec6p,
      Stone2002.npInterp, Stone2002.XSec2pData, Stone2002.interpP]
  · norm_num [Stone2002.TotalXSec, Stone2002.CalcXSec2p, Stone2002.CalcXSec3p,
      Stone2002.CalcXSec4p, Stone2002.CalcXSec5p, Stone2002.CalcXSec6p]

set_option maxHeartbeats 2000000 in
/-- C4 (amended): `TotalXSec` is NOT continuous across the state
thresholds.  For every T strictly below the 2p threshold 10.204 eV all
five states contribute 0, so `TotalXSec T = 0`; at each threshold the
corresponding state's cross-section jumps to the first tabulated value
(np.interp clamps below the table minimum): 2p contributes 0.15876e-20 at
10.204 eV (so `TotalXSec 10.204 = 0.15876e-20`), 3p contributes
0.03033e-20 at 12.094 eV, 4p 0.00573e-20 at 12.755 eV, 5p 0.00528e-20 at
13.061 eV, and 6p 0.00267e-20 at 13.228 eV. -/
theorem stone_totalXSec_threshold_discontinuity (T : ℚ) (hT : T < 10.204) :
    Stone2002.TotalXSec T = 0 ∧
    Stone2002.TotalXSec 10.204 = 0.15876e-20 ∧
    Stone2002.CalcXSec3p 12.094 = 0.03033e-20 ∧
    Stone2002.CalcXSec4p 12.755 = 0.00573e-20 ∧
    Stone2002.CalcXSec5p 13.061 = 0.00528e-20 ∧
    Stone2002.CalcXSec6p 13.228 = 0.00267e-20 := by
  have h3 : T < 12.094 := by linarith
  have h4 : T < 12.755 := by linarith
  have h5 : T < 13.061 := by linarith
  have h6 : T < 13.228 := by linarith
  refine ⟨?_, ?_, ?_, ?_, ?_, ?_⟩
  · simp only [Stone2002.TotalXSec, Stone2002.CalcXSec2p, Stone2002.CalcXSec3p,
      Stone2002.CalcXSec4p, Stone2002.CalcXSec5p, Stone2002.CalcXSec6p]
    rw [if_pos hT, if_pos h3, if_pos h4, if_pos h5, if_pos h6]
    norm_num
  · norm_num [Stone2002.TotalXSec, Stone2002.CalcXSec2p, Stone2002.CalcXSec3p,
      Stone2002.CalcXSec4p, Stone2002.CalcXSec5p, Stone2002.CalcXSec6p,
      Stone2002.npInterp, Stone2002.XSec2pData, Stone2002.interpP]
  · norm_num [Stone2002.CalcXSec3p, Stone2002.npInterp, Stone2002.XSec3pData,
      Stone2002.interpP]
  · norm_num [Stone2002.CalcXSec4p, Stone2002.npInterp, Stone2002.XSec4pData,
      Stone2002.interpP]
  · norm_num [Stone2002.CalcXSec5p, Stone2002.npInterp, Stone2002.XSec5pData,
      Stone2002.interpP]
  · norm_num [Stone2002.CalcXSec6p, Stone2002.npInterp, Stone2002.XSec6pData,
      Stone2002.interpP]

/-- Witness for the amended C4 at T = 10 eV. -/
theorem stone_totalXSec_threshold_discontinuity_witness :
    (10 : ℚ) < 10.204 ∧
      (Stone2002.TotalXSec 10 = 0 ∧
       Stone2002.TotalXSec 10.204 = 0.15876e-20 ∧
       Stone2002.CalcXSec3p 12.094 = 0.03033e-20 ∧
       Stone2002.CalcXSec4p 12.755 = 0.00573e-20 ∧
       Stone2002.CalcXSec5p 13.061 = 0.00528e-20 ∧
       Stone2002.CalcXSec6p 13.228 = 0.00267e-20) :=
  ⟨by norm_num, stone_totalXSec_threshold_discontinuity 10 (by norm_num)⟩

set_option maxHeartbeats 4000000 in
/-- C8: for every T strictly above the maximum tabulated energy (3000 eV),
each `CalcXSec<state>` returns the cross-section stored at 3000 eV
(np.interp clamps at the right boundary; no linear extrapolation). -/
theorem stone_calcXSec_clamps_above_table_max (T : ℚ) (hT : 3000 < T) :
    Stone2002.CalcXSec2p T = 0.05214e-20 ∧
    Stone2002.CalcXSec3p T = 0.00862e-20 ∧
    Stone2002.CalcXSec4p T = 0.00303e-20 ∧
    Stone2002.CalcXSec5p T = 0.00143e-20 ∧
    Stone2002.CalcXSec6p T = 0.000791e-20 := by
  refine ⟨?_, ?_, ?_, ?_, ?_⟩
  · have hth : ¬ (T < (10.204 : ℚ)) := not_lt.mpr (by linarith)
    have hb : ∀ e ∈ Stone2002.XSec2pData.1, e ≤ 3000 := by
      norm_num [Stone2002.XSec2pData, List.forall_mem_cons]
    simp only [Stone2002.CalcXSec2p, Stone2002.npInterp]
    rw [if_neg hth,
      Stone2002.interpP_of_forall_lt T _ (Stone2002.zip_fst_lt_of_le_3000 _ _ T hT hb)]
    norm_num [Stone2002.XSec2pData, List.zip, List.zipWith, List.getLastD]
  · have hth : ¬ (T < (12.094 : ℚ)) := not_lt.mpr (by linarith)
    have hb : ∀ e ∈ Stone2002.XSec3pData.1, e ≤ 3000 := by
      norm_num [Stone2002.XSec3pData, List.forall_mem_cons]
    simp only [Stone2002.CalcXSec3p, Stone2002.npInterp]
    rw [if_neg hth,
      Stone2002.interpP_of_forall_lt T _ (Stone2002.zip_fst_lt_of_le_3000 _ _ T hT hb)]
    norm_num [Stone2002.XSec3pData, List.zip, List.zipWith, List.getLastD]
  · have hth : ¬ (T < (12.755 : ℚ)) := not_lt.mpr (by linarith)
    have hb : ∀ e ∈ Stone2002.XSec4pData.1, e ≤ 3000 := by
      norm_num [Stone2002.XSec4pData, List.forall_mem_cons]
    simp only [Stone2002.CalcXSec4p, Stone2002.npInterp]
    rw [if_neg hth,
      Stone2002.interpP_of_forall_lt T _ (Stone2002.zip_fst_lt_of_le_3000 _ _ T hT hb)]
    norm_num [Stone2002.XSec4pData, List.zip, List.zipWith, List.getLastD]
  · have hth : ¬ (T < (13.061 : ℚ)) := not_lt.mpr (by linarith)
    have hb : ∀ e ∈ Stone2002.XSec5pData.1, e ≤ 3000 := by
      norm_num [Stone2002.XSec5pData, List.forall_mem_cons]
    simp only [Stone2002.CalcXSec5p, Stone2002.npInterp]
    rw [if_neg hth,
      Stone2002.interpP_of_forall_lt T _ (Stone2002.zip_fst_lt_of_le_3000 _ _ T hT hb)]
    norm_num [Stone2002.XSec5pData, List.zip, List.zipWith, List.getLastD]
  · have hth : ¬ (T < (13.228 : ℚ)) := not_lt.mpr (by linarith)
    have hb : ∀ e ∈ Stone2002.XSec6pData.1, e ≤ 3000 := by
      norm_num [Stone2002.XSec6pData, List.forall_mem_cons]
    simp only [Stone2002.CalcXSec6p, Stone2002.npInterp]
    rw [if_neg hth,
      Stone2002.interpP_of_forall_lt T _ (Stone2002.zip_fst_lt_of_le_3000 _ _ T hT hb)]
    norm_num [Stone2002.XSec6pData, List.zip, List.zipWith, List.getLastD]

/-- Witness for C8 at T = 5000 eV. -/
theorem stone_calcXSec_clamps_above_table_max_witness :
    (3000 : ℚ) < 5000 ∧
      (Stone2002.CalcXSec2p 5000 = 0.05214e-20 ∧
       Stone2002.CalcXSec3p 5000 = 0.00862e-20 ∧
       Stone2002.CalcXSec4p 5000 = 0.00303e-20 ∧
       Stone2002.CalcXSec5p 5000 = 0.00143e-20 ∧
       Stone2002.CalcXSec6p 5000 = 0.000791e-20) :=
  ⟨by norm_num, stone_calcXSec_clamps_above_table_max 5000 (by norm_num)⟩

set_option maxHeartbeats 4000000 in
/-- C9: in each of the five Stone2002 state tables the energies list and
the cross-sections list have equal length, and the energies are strictly
increasing. -/
theorem stone_tables_parallel_and_strictly_increasing :
    (Stone2002.XSec2pData.1.length = Stone2002.XSec2pData.2.length ∧
      List.Chain' (fun a b => a < b) Stone2002.XSec2pData.1) ∧
    (Stone2002.XSec3pData.1.length = Stone2002.XSec3pData.2.length ∧
      List.Chain' (fun a b => a < b) Stone2002.XSec3pData.1) ∧
    (Stone2002.XSec4pData.1.length = Stone2002.XSec4pData.2.length ∧
      List.Chain' (fun a b => a < b) Stone2002.XSec4pData.1) ∧
    (Stone2002.XSec5pData.1.length = Stone2002.XSec5pData.2.length ∧
      List.Chain' (fun a b => a < b) Stone2002.XSec5pData.1) ∧
    (Stone2002.XSec6pData.1.length = Stone2002.XSec6pData.2.length ∧
      List.Chain' (fun a b => a < b) Stone2002.XSec6pData.1) := by
  refine ⟨⟨?_, ?_⟩, ⟨?_, ?_⟩, ⟨?_, ?_⟩, ⟨?_, ?_⟩, ⟨?_, ?_⟩⟩
  · simp [Stone2002.XSec2pData]
  · norm_num [Stone2002.XSec2pData, List.chain'_cons]
  · simp [Stone2002.XSec3pData]
  · norm_num [Stone2002.XSec3pData, List.chain'_cons]
  · simp [Stone2002.XSec4pData]
  · norm_num [Stone2002.XSec4pData, List.chain'_cons]
  · simp [Stone2002.XSec5pData]
  · norm_num [Stone2002.XSec5pData, List.chain'_cons]
  · simp [Stone2002.XSec6pData]
  · norm_num [Stone2002.XSec6pData, List.chain'_cons]
